import Mathlib

/-!
Verification of the time-scale conversion core of
`scripts/leap_seconds_generator.py` (libswiftnav leap-second table
generator).

The script manipulates three clock values (UTC, GPS, Unix) given as
integer second counts, converts between them using fixed epoch
differences computed by Python `datetime` subtraction, and renders a
leap-second table via a template loop.  We embed the arithmetic core:

* the epoch constants, with the `datetime` subtraction modelled by a
  proleptic-Gregorian ordinal-day function (Python `date.toordinal`);
* `UtcClock`, `GpsClock`, `UnixClock` and their methods, with Python
  `int(x / 604800)` modelled by `Int.tdiv` (truncation toward zero) and
  Python `x % 604800` by `Int.emod` (result in `[0, 604800)` for the
  positive modulus used here);
* the table-row loop, the expiry construction
  `UtcClock(expires_time, utc_leap_list[-1].tai_utc_offset())` (which
  raises IndexError on an empty list, modelled by `Option`), and the
  expiry markers emitted by the template.
-/

namespace LeapSecondsGenerator

/-- Proleptic-Gregorian leap-year test, as in Python `datetime`. -/
def isLeapYear (y : Nat) : Bool :=
  y % 4 == 0 && (y % 100 != 0 || y % 400 == 0)

/-- Days in the months strictly before month `m` of a non-leap year. -/
def daysBeforeMonth (m : Nat) : Nat :=
  match m with
  | 1 => 0 | 2 => 31 | 3 => 59 | 4 => 90 | 5 => 120 | 6 => 151
  | 7 => 181 | 8 => 212 | 9 => 243 | 10 => 273 | 11 => 304 | _ => 334

/-- Ordinal day number of a proleptic-Gregorian date (Python
`date(y, m, d).toordinal()` up to a fixed shift, which cancels in every
difference the script takes). -/
def toOrdinal (y m d : Nat) : Nat :=
  365 * (y - 1) + (y - 1) / 4 - (y - 1) / 100 + (y - 1) / 400
    + daysBeforeMonth m + (if isLeapYear y && 2 < m then 1 else 0) + (d - 1)

/-- `UTC_EPOCH = datetime.datetime(1900, 1, 1)`, as an ordinal day. -/
def UTC_EPOCH : Nat := toOrdinal 1900 1 1

/-- `UNIX_EPOCH = datetime.datetime(1970, 1, 1)`, as an ordinal day. -/
def UNIX_EPOCH : Nat := toOrdinal 1970 1 1

/-- `GPS_EPOCH = datetime.datetime(1980, 1, 6)`, as an ordinal day. -/
def GPS_EPOCH : Nat := toOrdinal 1980 1 6

/-- `(A - B).total_seconds()` for two midnight datetimes given as
ordinal days. -/
def epochDiffSeconds (a b : Nat) : Int := 86400 * ((a : Int) - (b : Int))

/-- `TAI_GPS_OFFSET = 19`. -/
def TAI_GPS_OFFSET : Int := 19

/-- `TAI_UNIX_OFFSET = 37`. -/
def TAI_UNIX_OFFSET : Int := 37

/-- `UtcClock(utc_time, tai_utc_offset)`: seconds since `UTC_EPOCH`
paired with the TAI-UTC offset in effect at that instant.  The script
constructs these from integer fields of the leap-seconds list. -/
structure UtcClock where
  utc_time : Int
  tai_utc_offset : Int
deriving DecidableEq

/-- `GpsClock(gps_time)`: seconds since `GPS_EPOCH`. -/
structure GpsClock where
  gps_time : Int
deriving DecidableEq

/-- `UnixClock(unix_time)`: seconds since `UNIX_EPOCH`. -/
structure UnixClock where
  unix_time : Int
deriving DecidableEq

/-- `UtcClock.to_gps_clock`:
`GpsClock(utc_time + tai_utc_offset - (GPS_EPOCH - UTC_EPOCH).total_seconds() - TAI_GPS_OFFSET)`. -/
def UtcClock.to_gps_clock (c : UtcClock) : GpsClock :=
  ⟨c.utc_time + c.tai_utc_offset - epochDiffSeconds GPS_EPOCH UTC_EPOCH - TAI_GPS_OFFSET⟩

/-- `UtcClock.to_unix_clock`:
`UnixClock(utc_time + tai_utc_offset - (UNIX_EPOCH - UTC_EPOCH).total_seconds() - TAI_UNIX_OFFSET)`. -/
def UtcClock.to_unix_clock (c : UtcClock) : UnixClock :=
  ⟨c.utc_time + c.tai_utc_offset - epochDiffSeconds UNIX_EPOCH UTC_EPOCH - TAI_UNIX_OFFSET⟩

/-- `GpsClock.wn`: `int(gps_time / 604800)`.  Python true division
followed by `int` truncates toward zero, which is `Int.tdiv`. -/
def GpsClock.wn (c : GpsClock) : Int := Int.tdiv c.gps_time 604800

/-- `GpsClock.tow`: `int(gps_time % 604800)`.  Python `%` with the
positive modulus 604800 lands in `[0, 604800)`, which is `Int.emod`. -/
def GpsClock.tow (c : GpsClock) : Int := Int.emod c.gps_time 604800

/-- `GpsClock.seconds_since_epoch`: `int(gps_time)`; the identity on the
integer values the script feeds in. -/
def GpsClock.seconds_since_epoch (c : GpsClock) : Int := c.gps_time

/-- `GpsClock.offset_seconds`: `GpsClock(gps_time + seconds)`. -/
def GpsClock.offset_seconds (c : GpsClock) (seconds : Int) : GpsClock :=
  ⟨c.gps_time + seconds⟩

/-- `UnixClock.seconds_since_epoch`: `int(unix_time)`. -/
def UnixClock.seconds_since_epoch (c : UnixClock) : Int := c.unix_time

/-- `UnixClock.offset_seconds`: `UnixClock(unix_time + seconds)`. -/
def UnixClock.offset_seconds (c : UnixClock) (seconds : Int) : UnixClock :=
  ⟨c.unix_time + seconds⟩

/-- The template guard
`utc_leap_item.to_gps_clock().seconds_since_epoch() >= 0`. -/
def keepEvent (c : UtcClock) : Bool :=
  decide (0 ≤ c.to_gps_clock.seconds_since_epoch)

/-- One emitted table row
`{ wn, tow, tai_utc_offset - TAI_GPS_OFFSET }`, with `wn` and `tow`
taken from `to_gps_clock().offset_seconds(-1)`. -/
def leapRow (c : UtcClock) : Int × Int × Int :=
  ((c.to_gps_clock.offset_seconds (-1)).wn,
   (c.to_gps_clock.offset_seconds (-1)).tow,
   c.tai_utc_offset - TAI_GPS_OFFSET)

/-- The template loop over `utc_leap_list`: one row per item whose
pre-offset GPS seconds are non-negative, in input order. -/
def utc_leaps : List UtcClock → List (Int × Int × Int)
  | [] => []
  | c :: rest => if keepEvent c then leapRow c :: utc_leaps rest else utc_leaps rest

/-- `utc_leap_list_expires = UtcClock(expires_time, utc_leap_list[-1].tai_utc_offset())`.
Python `[-1]` raises IndexError on an empty list, modelled by `none`. -/
def utc_leap_list_expires (l : List UtcClock) (expires_time : Int) : Option UtcClock :=
  match l.getLast? with
  | some last => some ⟨expires_time, last.tai_utc_offset⟩
  | none => none

/-- The two expiry markers the template renders from
`utc_leap_list_expires`: `{ wn, tow }` of `to_gps_clock()` (no
`offset_seconds(-1)`) and `to_unix_clock().seconds_since_epoch()`. -/
def expiryMarkers (c : UtcClock) : (Int × Int) × Int :=
  ((c.to_gps_clock.wn, c.to_gps_clock.tow), c.to_unix_clock.seconds_since_epoch)

/-! ### Helper lemmas shared by the claim theorems -/

/-- The calendar model evaluates `(GPS_EPOCH - UTC_EPOCH).total_seconds()`
to 2524953600 (29224 days from 1900-01-01 to 1980-01-06). -/
theorem gps_utc_diff_eval : epochDiffSeconds GPS_EPOCH UTC_EPOCH = 2524953600 := by
  decide

/-- The calendar model evaluates `(UNIX_EPOCH - UTC_EPOCH).total_seconds()`
to 2208988800 (25567 days from 1900-01-01 to 1970-01-01). -/
theorem unix_utc_diff_eval : epochDiffSeconds UNIX_EPOCH UTC_EPOCH = 2208988800 := by
  decide

/-- The template loop is a filter followed by a map over the input list. -/
theorem utc_leaps_eq_filter_map (l : List UtcClock) :
    utc_leaps l = (l.filter keepEvent).map leapRow := by
  induction l with
  | nil => rfl
  | cons c rest ih =>
      by_cases h : keepEvent c <;> simp [utc_leaps, List.filter_cons, h, ih]

/-- For non-negative seconds, truncating division and Euclidean remainder by
604800 recompose to the dividend. -/
theorem tdiv_emod_decomp (S : Int) (h : 0 ≤ S) :
    Int.tdiv S 604800 * 604800 + Int.emod S 604800 = S := by
  rw [Int.tdiv_eq_ediv h (by norm_num)]
  have h2 : Int.emod S 604800 = S % 604800 := rfl
  rw [h2]
  omega

/-- The Euclidean remainder by 604800 always lands in `[0, 604800)`. -/
theorem emod_bounds (S : Int) : 0 ≤ Int.emod S 604800 ∧ Int.emod S 604800 < 604800 := by
  have h2 : Int.emod S 604800 = S % 604800 := rfl
  omega

/-! ### Claim theorems -/

/-- C1: For every UtcClock constructed from `(utc_seconds, tai_utc_offset)`,
`to_gps_clock()` returns a GpsClock whose seconds-since-GPS_EPOCH equal
`utc_seconds + tai_utc_offset - (GPS_EPOCH - UTC_EPOCH in seconds) - TAI_GPS_OFFSET`,
where the epoch difference for GPS_EPOCH = 1980-01-06 and
UTC_EPOCH = 1900-01-01 evaluates to 2524953600 seconds and
TAI_GPS_OFFSET = 19. -/
theorem to_gps_clock_seconds_spec (c : UtcClock) :
    c.to_gps_clock.seconds_since_epoch =
      c.utc_time + c.tai_utc_offset - epochDiffSeconds GPS_EPOCH UTC_EPOCH - TAI_GPS_OFFSET ∧
    epochDiffSeconds GPS_EPOCH UTC_EPOCH = 2524953600 ∧
    TAI_GPS_OFFSET = 19 :=
  ⟨rfl, gps_utc_diff_eval, rfl⟩

/-- C2: The builder emits, for each event in input order, exactly one row
`(wn, tow, tai_utc_offset - TAI_GPS_OFFSET)` with `wn` and `tow` computed
from the event's GPS conversion shifted by `offset_seconds(-1)`, and emits
no row for an event whose pre-offset GPS seconds-since-epoch are
negative. -/
theorem utc_leaps_rows_spec (l : List UtcClock) :
    utc_leaps l = l.filterMap (fun c =>
      if 0 ≤ c.to_gps_clock.seconds_since_epoch then
        some ((c.to_gps_clock.offset_seconds (-1)).wn,
              (c.to_gps_clock.offset_seconds (-1)).tow,
              c.tai_utc_offset - TAI_GPS_OFFSET)
      else none) := by
  induction l with
  | nil => rfl
  | cons c rest ih =>
      by_cases h : 0 ≤ c.to_gps_clock.seconds_since_epoch
      · simp [utc_leaps, List.filterMap_cons, h, ih, keepEvent, leapRow]
      · simp [utc_leaps, List.filterMap_cons, h, ih, keepEvent, leapRow]

/-- C3: For every integer GPS seconds-since-epoch `S ≥ 0`, a GpsClock
constructed from `S` satisfies `wn() * 604800 + tow() = S` and
`0 ≤ tow() < 604800`: a true Euclidean decomposition modulo 604800. -/
theorem wn_tow_euclidean (S : Int) (h : 0 ≤ S) :
    (GpsClock.mk S).wn * 604800 + (GpsClock.mk S).tow = S ∧
    0 ≤ (GpsClock.mk S).tow ∧ (GpsClock.mk S).tow < 604800 :=
  ⟨tdiv_emod_decomp S h, (emod_bounds S).1, (emod_bounds S).2⟩

/-- Witness for C3 at `S = 1234567`. -/
theorem wn_tow_euclidean_witness :
    0 ≤ (1234567 : Int) ∧
    ((GpsClock.mk 1234567).wn * 604800 + (GpsClock.mk 1234567).tow = 1234567 ∧
     0 ≤ (GpsClock.mk 1234567).tow ∧ (GpsClock.mk 1234567).tow < 604800) :=
  ⟨by norm_num, wn_tow_euclidean 1234567 (by norm_num)⟩

/-- C4 counterexample: on an empty leap-event list the expiry construction
`UtcClock(expires_time, utc_leap_list[-1].tai_utc_offset())` fails
(Python raises IndexError on `[-1]`), so the core does not return a
result for every input. -/
theorem utc_leap_list_expires_empty_fails :
    utc_leap_list_expires [] 0 = none := rfl

/-- C4 (amended): for every non-empty LeapEvent sequence the core raises
no error: the expiry construction succeeds, unconditionally on the values
themselves (no validation), producing a deterministic result. -/
theorem utc_leap_list_expires_total_of_nonempty (l : List UtcClock) (e : Int)
    (h : l ≠ []) :
    (utc_leap_list_expires l e).isSome = true := by
  simp [utc_leap_list_expires, List.getLast?_eq_getLast l h]

/-- Witness for the amended C4 on a one-event list. -/
theorem utc_leap_list_expires_total_witness :
    ([UtcClock.mk 0 10] ≠ []) ∧
    (utc_leap_list_expires [UtcClock.mk 0 10] 5).isSome = true :=
  ⟨by simp, utc_leap_list_expires_total_of_nonempty [UtcClock.mk 0 10] 5 (by simp)⟩

/-- C5: for the UtcClock whose `utc_seconds` equal the Unix epoch expressed
in seconds since UTC_EPOCH (2208988800, for UTC_EPOCH = 1900-01-01 and
UNIX_EPOCH = 1970-01-01) and whose `tai_utc_offset` is 0,
`to_unix_clock().seconds_since_epoch() = -37` with TAI_UNIX_OFFSET = 37. -/
theorem to_unix_clock_at_unix_epoch :
    (UtcClock.mk (epochDiffSeconds UNIX_EPOCH UTC_EPOCH) 0).to_unix_clock.seconds_since_epoch
      = -37 ∧
    epochDiffSeconds UNIX_EPOCH UTC_EPOCH = 2208988800 ∧
    TAI_UNIX_OFFSET = 37 := by
  refine ⟨?_, unix_utc_diff_eval, rfl⟩
  show epochDiffSeconds UNIX_EPOCH UTC_EPOCH + 0
      - epochDiffSeconds UNIX_EPOCH UTC_EPOCH - TAI_UNIX_OFFSET = -37
  show epochDiffSeconds UNIX_EPOCH UTC_EPOCH + 0
      - epochDiffSeconds UNIX_EPOCH UTC_EPOCH - 37 = -37
  ring

/-- C6: for every non-empty LeapEvent sequence and every expiry instant, the
expiry UTC value is constructed with the `tai_utc_offset` of the last event,
and the emitted markers use the unshifted GPS conversion (no
`offset_seconds(-1)`: for any clock with non-negative GPS seconds the
marker pair recomposes to exactly its unshifted GPS seconds) together with
the Unix seconds-since-epoch. -/
theorem expires_last_offset_and_markers (l : List UtcClock) (e : Int) (c : UtcClock)
    (h : l ≠ []) (hc : 0 ≤ c.to_gps_clock.seconds_since_epoch) :
    utc_leap_list_expires l e = some (UtcClock.mk e (l.getLast h).tai_utc_offset) ∧
    expiryMarkers c = ((c.to_gps_clock.wn, c.to_gps_clock.tow),
                       c.to_unix_clock.seconds_since_epoch) ∧
    (expiryMarkers c).1.1 * 604800 + (expiryMarkers c).1.2
      = c.to_gps_clock.seconds_since_epoch := by
  refine ⟨?_, rfl, tdiv_emod_decomp _ hc⟩
  simp [utc_leap_list_expires, List.getLast?_eq_getLast l h]

/-- Witness for C6: a one-event list with offset 37, expiry instant 7, and a
clock sitting exactly at the GPS epoch. -/
theorem expires_last_offset_and_markers_witness :
    (([UtcClock.mk 3 37] : List UtcClock) ≠ []) ∧
    0 ≤ (UtcClock.mk 2524953619 0).to_gps_clock.seconds_since_epoch ∧
    utc_leap_list_expires [UtcClock.mk 3 37] 7 = some (UtcClock.mk 7 37) := by
  have h : ([UtcClock.mk 3 37] : List UtcClock) ≠ [] := by simp
  have hc : 0 ≤ (UtcClock.mk 2524953619 0).to_gps_clock.seconds_since_epoch := by decide
  exact ⟨h, hc,
    (expires_last_offset_and_markers [UtcClock.mk 3 37] 7 (UtcClock.mk 2524953619 0) h hc).1⟩

/-- C7: for every `(utc_seconds, tai_utc_offset)` pair,
`to_gps_clock().offset_seconds(1).seconds_since_epoch()` equals
`to_gps_clock().seconds_since_epoch() + 1`, and `offset_seconds` is a pure
additive shift returning a new GpsClock value. -/
theorem offset_seconds_one_adds_one (c : UtcClock) :
    (c.to_gps_clock.offset_seconds 1).seconds_since_epoch
      = c.to_gps_clock.seconds_since_epoch + 1 ∧
    c.to_gps_clock.offset_seconds 1 = GpsClock.mk (c.to_gps_clock.gps_time + 1) :=
  ⟨rfl, rfl⟩

/-- C8: for every LeapEvent sequence ascending in occurrence time, the
emitted rows are the row images of the filtered subsequence taken in input
order, and that subsequence is still ascending in occurrence time:
filtering only removes rows, never reorders them. -/
theorem utc_leaps_preserve_order (l : List UtcClock)
    (h : List.Pairwise (fun a b => a.utc_time ≤ b.utc_time) l) :
    utc_leaps l = (l.filter keepEvent).map leapRow ∧
    List.Pairwise (fun a b => a.utc_time ≤ b.utc_time) (l.filter keepEvent) :=
  ⟨utc_leaps_eq_filter_map l, h.filter keepEvent⟩

/-- Witness for C8 on a two-event ascending list. -/
theorem utc_leaps_preserve_order_witness :
    List.Pairwise (fun a b : UtcClock => a.utc_time ≤ b.utc_time)
      [UtcClock.mk 0 10, UtcClock.mk 5 11] ∧
    (utc_leaps [UtcClock.mk 0 10, UtcClock.mk 5 11]
        = (([UtcClock.mk 0 10, UtcClock.mk 5 11].filter keepEvent).map leapRow) ∧
     List.Pairwise (fun a b : UtcClock => a.utc_time ≤ b.utc_time)
       ([UtcClock.mk 0 10, UtcClock.mk 5 11].filter keepEvent)) :=
  ⟨by decide, utc_leaps_preserve_order [UtcClock.mk 0 10, UtcClock.mk 5 11] (by decide)⟩

/-- C9: for every GPS seconds value `S` with `-604800 < S < 0` the
decomposition breaks: `wn() = 0` (truncation toward zero) while
`tow() = S + 604800` (floor modulo), so `wn() * 604800 + tow() ≠ S`; and
every event sitting exactly at GPS seconds 0 passes the non-negativity
filter and is emitted, after `offset_seconds(-1)`, as the pair
`(0, 604799)`. -/
theorem gps_negative_truncation (S : Int) (c : UtcClock)
    (h1 : -604800 < S) (h2 : S < 0)
    (hc : c.to_gps_clock.seconds_since_epoch = 0) :
    (GpsClock.mk S).wn = 0 ∧
    (GpsClock.mk S).tow = S + 604800 ∧
    (GpsClock.mk S).wn * 604800 + (GpsClock.mk S).tow ≠ S ∧
    keepEvent c = true ∧
    (c.to_gps_clock.offset_seconds (-1)).wn = 0 ∧
    (c.to_gps_clock.offset_seconds (-1)).tow = 604799 := by
  have hwn : (GpsClock.mk S).wn = 0 := by
    show Int.tdiv S 604800 = 0
    have hS : S = -(-S) := by ring
    rw [hS, Int.neg_tdiv, Int.tdiv_eq_zero_of_lt (by omega) (by omega)]
    ring
  have htow : (GpsClock.mk S).tow = S + 604800 := by
    show Int.emod S 604800 = S + 604800
    have h3 : Int.emod S 604800 = S % 604800 := rfl
    omega
  have hg : c.to_gps_clock.gps_time = 0 := hc
  refine ⟨hwn, htow, ?_, ?_, ?_, ?_⟩
  · rw [hwn, htow]; omega
  · simp [keepEvent, GpsClock.seconds_since_epoch, hg]
  · show Int.tdiv (c.to_gps_clock.gps_time + (-1)) 604800 = 0
    rw [hg]; decide
  · show Int.emod (c.to_gps_clock.gps_time + (-1)) 604800 = 604799
    rw [hg]; decide

/-- Witness for C9 at `S = -1` and an event sitting exactly at the GPS
epoch. -/
theorem gps_negative_truncation_witness :
    (-604800 < (-1 : Int) ∧ (-1 : Int) < 0 ∧
     (UtcClock.mk 2524953619 0).to_gps_clock.seconds_since_epoch = 0) ∧
    ((GpsClock.mk (-1)).wn = 0 ∧
     (GpsClock.mk (-1)).tow = -1 + 604800 ∧
     (GpsClock.mk (-1)).wn * 604800 + (GpsClock.mk (-1)).tow ≠ -1 ∧
     keepEvent (UtcClock.mk 2524953619 0) = true ∧
     ((UtcClock.mk 2524953619 0).to_gps_clock.offset_seconds (-1)).wn = 0 ∧
     ((UtcClock.mk 2524953619 0).to_gps_clock.offset_seconds (-1)).tow = 604799) :=
  ⟨⟨by norm_num, by norm_num, by decide⟩,
   gps_negative_truncation (-1) (UtcClock.mk 2524953619 0)
     (by norm_num) (by norm_num) (by decide)⟩

/-- C10: for every UtcClock, the underlying seconds of `to_unix_clock()`
minus those of `to_gps_clock()` equal the fixed constant
`(GPS_EPOCH - UNIX_EPOCH in seconds) - (TAI_UNIX_OFFSET - TAI_GPS_OFFSET)
= 315964800 - 18 = 315964782`, independent of `utc_seconds` and
`tai_utc_offset`. -/
theorem unix_gps_fixed_difference (c : UtcClock) :
    c.to_unix_clock.unix_time - c.to_gps_clock.gps_time = 315964782 ∧
    epochDiffSeconds GPS_EPOCH UNIX_EPOCH = 315964800 ∧
    TAI_UNIX_OFFSET - TAI_GPS_OFFSET = 18 := by
  refine ⟨?_, by decide, by decide⟩
  have h1 := unix_utc_diff_eval
  have h2 := gps_utc_diff_eval
  simp only [UtcClock.to_unix_clock, UtcClock.to_gps_clock, TAI_UNIX_OFFSET,
    TAI_GPS_OFFSET, h1, h2]
  omega

end LeapSecondsGenerator
